import Mathlib

/-!
Verification of the upload orchestration core of the s3-presigned-upload
library: error taxonomy, retry/backoff state machine, descriptor
initializer, transports, progress throttling and the bounded-concurrency
scheduler.  Every definition is a shallow embedding of the corresponding
TypeScript function; network effects are passed in as explicit outcome
values, and wall-clock time as explicit integer timestamps.
-/

namespace S3Upload

/-! ## Error taxonomy (src/core/errors.ts) -/

/-- Embeds the `UploadErrorCode` union type. -/
inductive UploadErrorCode
  | NETWORK
  | TIMEOUT
  | EXPIRED
  | ABORTED
  | BAD_REQUEST
  | SERVER
deriving DecidableEq, Repr

/-- Embeds the `UploadPhase` union type. -/
inductive UploadPhase
  | initPhase
  | uploadPhase
deriving DecidableEq, Repr

/-- Embeds the `UploadError` class.  The `detail` payload is `unknown` in the
source; it is modelled as an opaque optional string. -/
structure UploadError where
  message : String
  phase : UploadPhase
  code : UploadErrorCode
  status : Option Nat := none
  detail : Option String := none
deriving DecidableEq, Repr

/-- Embeds `createNetworkError`. -/
def createNetworkError (phase : UploadPhase) (message : String)
    (detail : Option String := none) : UploadError :=
  { message := message, phase := phase, code := UploadErrorCode.NETWORK,
    status := none, detail := detail }

/-- Embeds `createTimeoutError`. -/
def createTimeoutError (phase : UploadPhase)
    (message : String := "Request timed out") : UploadError :=
  { message := message, phase := phase, code := UploadErrorCode.TIMEOUT }

/-- Embeds `createAbortError`. -/
def createAbortError (phase : UploadPhase)
    (message : String := "Upload was aborted") : UploadError :=
  { message := message, phase := phase, code := UploadErrorCode.ABORTED }

/-- Embeds `createExpiredError`; the status is always 403. -/
def createExpiredError (phase : UploadPhase)
    (message : String := "Presigned URL has expired") : UploadError :=
  { message := message, phase := phase, code := UploadErrorCode.EXPIRED,
    status := some 403 }

/-- Embeds `createServerError`. -/
def createServerError (phase : UploadPhase) (status : Nat) (message : String)
    (detail : Option String := none) : UploadError :=
  { message := message, phase := phase, code := UploadErrorCode.SERVER,
    status := some status, detail := detail }

/-- Embeds `createBadRequestError`. -/
def createBadRequestError (phase : UploadPhase) (status : Nat) (message : String)
    (detail : Option String := none) : UploadError :=
  { message := message, phase := phase, code := UploadErrorCode.BAD_REQUEST,
    status := some status, detail := detail }

/-- Embeds `isRetryableError`.  The JavaScript truthiness test
`error.status && error.status >= 500` is modelled exactly: an absent status
or a status of 0 is falsy. -/
def statusTruthyGe500 (status : Option Nat) : Bool :=
  match status with
  | some s => (!(s == 0)) && decide (500 ≤ s)
  | none => false

def isRetryableError (e : UploadError) : Bool :=
  if e.code = UploadErrorCode.NETWORK ∨ e.code = UploadErrorCode.TIMEOUT then
    true
  else if e.code = UploadErrorCode.SERVER ∧ statusTruthyGe500 e.status = true then
    true
  else if e.code = UploadErrorCode.EXPIRED ∧ e.status = some 403 then
    true
  else
    false

/-- Embeds `requiresReinit`. -/
def requiresReinit (e : UploadError) : Bool :=
  e.code = UploadErrorCode.EXPIRED ∧ e.status = some 403

/-- A raw JavaScript exception value, as observed by `normalizeError`:
either an `UploadError` instance, a generic `Error` instance carrying a
`name` and a `message`, or a non-`Error` value. -/
inductive RawError
  | uploadErr (e : UploadError)
  | jsError (name : String) (message : String)
  | other (desc : String)
deriving DecidableEq, Repr

/-- Embeds `normalizeError`. -/
def normalizeError (error : RawError) (phase : UploadPhase)
    (defaultMessage : String := "An unexpected error occurred") : UploadError :=
  match error with
  | RawError.uploadErr e => e
  | RawError.jsError name msg =>
    if name = "AbortError" then createAbortError phase msg
    else if name = "TimeoutError" then createTimeoutError phase msg
    else createNetworkError phase msg (some msg)
  | RawError.other desc => createNetworkError phase defaultMessage (some desc)

/-- Embeds the message template of `createErrorFromResponse`. -/
def httpMessage (status : Nat) (statusText : String) : String :=
  "HTTP " ++ toString status ++ ": " ++ statusText

/-- Embeds `createErrorFromResponse`. -/
def createErrorFromResponse (phase : UploadPhase) (status : Nat)
    (statusText : String) (responseBody : Option String := none) : UploadError :=
  let message := httpMessage status statusText
  if 400 ≤ status ∧ status < 500 then
    if status = 403 then createExpiredError phase message
    else createBadRequestError phase status message responseBody
  else if 500 ≤ status then
    createServerError phase status message responseBody
  else
    createNetworkError phase message responseBody

/-! ## Claim C1 -/

/-- The retry policy record (`RetryConfig`, with all fields required, as in
`DEFAULT_RETRY_CONFIG`). -/
inductive BackoffKind
  | linear
  | exponential
deriving DecidableEq, Repr

structure RetryConfig where
  retries : Nat
  backoff : BackoffKind
  minDelayMs : Nat
  maxDelayMs : Nat
  reinitOnAuthError : Bool
deriving DecidableEq, Repr

/-- Modelled from the spec: the retryability predicate exactly as claim C1
words it, with `EXPIRED` retryable only when the policy's reinit flag is
set.  Compared against the source's `isRetryableError`. -/
def specClaimRetryable (cfg : RetryConfig) (e : UploadError) : Bool :=
  match e.code with
  | UploadErrorCode.NETWORK => true
  | UploadErrorCode.TIMEOUT => true
  | UploadErrorCode.SERVER => true
  | UploadErrorCode.EXPIRED => cfg.reinitOnAuthError
  | UploadErrorCode.BAD_REQUEST => false
  | UploadErrorCode.ABORTED => false

/-- The classified errors: every `UploadError` produced by the library's own
classifiers (`createErrorFromResponse` applied to an HTTP response, or
`normalizeError` applied to a raw non-`UploadError` exception). -/
inductive IsClassified : UploadError → Prop
  | ofResponse (phase : UploadPhase) (status : Nat) (statusText : String)
      (body : Option String) :
      IsClassified (createErrorFromResponse phase status statusText body)
  | ofJsError (phase : UploadPhase) (name msg dm : String) :
      IsClassified (normalizeError (RawError.jsError name msg) phase dm)
  | ofOther (phase : UploadPhase) (desc dm : String) :
      IsClassified (normalizeError (RawError.other desc) phase dm)

/-- Claim C1, counterexample: a classified `EXPIRED` error (HTTP 403) is
retryable according to the code even when the policy's `reinitOnAuthError`
flag is false, contradicting the claim that `EXPIRED` is retryable only if
that flag is set. -/
theorem expired_retryable_despite_reinit_flag_off :
    isRetryableError (createErrorFromResponse UploadPhase.uploadPhase 403
        ("Forbidden") none) = true ∧
    specClaimRetryable
        { retries := 3, backoff := BackoffKind.exponential, minDelayMs := 500,
          maxDelayMs := 4000, reinitOnAuthError := false }
        (createErrorFromResponse UploadPhase.uploadPhase 403 ("Forbidden") none)
      = false := by
  refine ⟨?_, ?_⟩
  · simp [createErrorFromResponse, createExpiredError, isRetryableError,
      statusTruthyGe500, httpMessage]
  · simp [createErrorFromResponse, createExpiredError, specClaimRetryable,
      httpMessage]

/-- Claim C1, amended: for every classified `UploadError`, retryability is
independent of the retry policy: `NETWORK`, `TIMEOUT`, `SERVER` and
`EXPIRED` errors are retryable (classified `SERVER` errors always carry a
status of at least 500, and classified `EXPIRED` errors always carry status
403), while `BAD_REQUEST` and `ABORTED` errors are never retryable. -/
theorem classified_retryable_iff_not_bad_request_or_aborted (e : UploadError)
    (h : IsClassified e) :
    isRetryableError e = true ↔
      (e.code ≠ UploadErrorCode.BAD_REQUEST ∧ e.code ≠ UploadErrorCode.ABORTED) := by
  cases h with
  | ofResponse phase status statusText body =>
    unfold createErrorFromResponse
    by_cases h4 : 400 ≤ status ∧ status < 500
    · by_cases h403 : status = 403
      · simp [h4, h403, createExpiredError, isRetryableError, statusTruthyGe500]
      · simp [h4, h403, createBadRequestError, isRetryableError, statusTruthyGe500]
    · by_cases h5 : 500 ≤ status
      · have hs0 : status ≠ 0 := by omega
        simp [h4, h5, createServerError, isRetryableError, statusTruthyGe500, hs0]
      · simp [h4, h5, createNetworkError, isRetryableError, statusTruthyGe500]
  | ofJsError phase name msg dm =>
    unfold normalizeError
    by_cases ha : name = "AbortError"
    · simp [ha, createAbortError, isRetryableError]
    · by_cases ht : name = "TimeoutError"
      · simp [ha, ht, createTimeoutError, isRetryableError]
      · simp [ha, ht, createNetworkError, isRetryableError]
  | ofOther phase desc dm =>
    simp [normalizeError, createNetworkError, isRetryableError]

/-- Witness for the amended claim C1, at a concrete classified 502 server
error. -/
theorem classified_retryable_witness :
    isRetryableError (createErrorFromResponse UploadPhase.uploadPhase 502
        ("Bad Gateway") none) = true := by
  have h := classified_retryable_iff_not_bad_request_or_aborted
    (createErrorFromResponse UploadPhase.uploadPhase 502 ("Bad Gateway") none)
    (IsClassified.ofResponse UploadPhase.uploadPhase 502 ("Bad Gateway") none)
  exact h.mpr (by constructor <;> decide)

/-! ## Backoff delays (claim C4) -/

/-- Embeds `calculateRetryDelay`: the backoff delay before the attempt that
follows attempt number `attempt`, clamped to `maxDelayMs`. -/
def calculateRetryDelay (attempt : Nat) (config : RetryConfig) : Nat :=
  let delay : Nat :=
    match config.backoff with
    | BackoffKind.linear => config.minDelayMs * attempt
    | BackoffKind.exponential => config.minDelayMs * 2 ^ (attempt - 1)
  min delay config.maxDelayMs

/-- Modelled from the spec: the delay formula exactly as claim C4 words it,
`min(minDelayMs * a, maxDelayMs)` for linear backoff and
`min(minDelayMs * 2 ^ (a - 1), maxDelayMs)` for exponential backoff. -/
def specClaimDelay (a : Nat) (config : RetryConfig) : Nat :=
  match config.backoff with
  | BackoffKind.linear => min (config.minDelayMs * a) config.maxDelayMs
  | BackoffKind.exponential => min (config.minDelayMs * 2 ^ (a - 1)) config.maxDelayMs

/-- Claim C4: for every attempt number at least 1 and every policy whose
delay bounds are ordered, the computed backoff delay is exactly the clamped
linear or exponential formula of the claim. -/
theorem calculateRetryDelay_matches_spec (a : Nat) (config : RetryConfig)
    (ha : 1 ≤ a) (hminmax : config.minDelayMs ≤ config.maxDelayMs) :
    calculateRetryDelay a config = specClaimDelay a config := by
  cases h : config.backoff <;>
    simp [calculateRetryDelay, specClaimDelay, h]

/-- Witness for claim C4: the retry-abort test's exponential scenario,
attempt 3 with minimum delay 100 and maximum 1000. -/
theorem calculateRetryDelay_witness :
    calculateRetryDelay 3
        { retries := 3, backoff := BackoffKind.exponential, minDelayMs := 100,
          maxDelayMs := 1000, reinitOnAuthError := true }
      = specClaimDelay 3
        { retries := 3, backoff := BackoffKind.exponential, minDelayMs := 100,
          maxDelayMs := 1000, reinitOnAuthError := true } :=
  calculateRetryDelay_matches_spec 3 _ (by decide) (by decide)

/-! ## Descriptors and upload results -/

/-- The two descriptor variants (`PresignPut` / `PresignPost`), as the
tagged union `PresignConfig`. -/
inductive PresignConfig
  | put (uploadUrl : String) (key : String)
      (headers : Option (List (String × String))) (expiresAt : Option Nat)
  | post (uploadUrl : String) (key : String)
      (fields : List (String × String)) (postFileFieldName : Option String)
      (expiresAt : Option Nat)
deriving DecidableEq, Repr

/-- The variant tag of a descriptor (the `mode` field). -/
inductive UploadMode
  | putMode
  | postMode
deriving DecidableEq, Repr

def PresignConfig.mode : PresignConfig → UploadMode
  | PresignConfig.put _ _ _ _ => UploadMode.putMode
  | PresignConfig.post _ _ _ _ _ => UploadMode.postMode

def PresignConfig.key : PresignConfig → String
  | PresignConfig.put _ k _ _ => k
  | PresignConfig.post _ k _ _ _ => k

/-- Embeds `UploadResult`. -/
structure UploadResult where
  key : String
  location : Option String
  etag : Option String
  mode : UploadMode
deriving DecidableEq, Repr

/-! ## Retry/reinit orchestrator (`uploadWithRetry`, claims C2 and C3) -/

/-- The transient attempt state owned by one orchestrated call: the loop
counter, the cached descriptor, the last error, plus two observation
counters recording how many Initializer and Transport calls have been
issued. -/
structure RetryState where
  attempt : Nat
  presignConfig : Option PresignConfig
  lastError : Option UploadError
  initCalls : Nat
  transportCalls : Nat
deriving DecidableEq, Repr

/-- The externally observable inputs of one loop iteration: the value of
`signal.aborted` at the top of the attempt, the settlement of the
Initializer call (consumed only if the attempt performs one), the
settlement of the Transport call (consumed only if the attempt reaches it),
and the value of `signal.aborted` at the retry check inside the catch
block. -/
structure AttemptEnv where
  abortedAtStart : Bool
  initResult : Except UploadError PresignConfig
  transportResult : Except UploadError UploadResult
  abortedAtCatch : Bool
deriving Repr

/-- Embeds the reinit condition of `uploadWithRetry`:
`!presignConfig || (lastError && requiresReinit(lastError) && retryConfig.reinitOnAuthError)`. -/
def needsReinit (cfg : RetryConfig) (s : RetryState) : Bool :=
  s.presignConfig.isNone ||
    (match s.lastError with
     | some e => requiresReinit e && cfg.reinitOnAuthError
     | none => false)

/-- How one loop iteration settles: a resolved result, a terminal throw, or
a retry after the computed backoff delay. -/
inductive AttemptResult
  | success (r : UploadResult)
  | fail (e : UploadError)
  | retry (delayMs : Nat)
deriving DecidableEq, Repr

/-- The full observable outcome of one loop iteration. -/
structure AttemptOut where
  result : AttemptResult
  state : RetryState
  initCalled : Bool
  descriptorSent : Option PresignConfig
deriving Repr

/-- Embeds the catch block of `uploadWithRetry`: re-normalize the error with
the phase chosen from the current cached descriptor, record it as the last
error, throw it if the attempt budget is exhausted, the error is not
retryable, or the signal is aborted, and otherwise sleep for the computed
delay and move to the next attempt. -/
def handleCatch (cfg : RetryConfig) (s : RetryState) (env : AttemptEnv)
    (err : UploadError) (initCalled : Bool)
    (descriptorSent : Option PresignConfig) : AttemptOut :=
  let ue := normalizeError (RawError.uploadErr err)
    (if s.presignConfig.isSome then UploadPhase.uploadPhase else UploadPhase.initPhase)
  let s1 := { s with lastError := some ue }
  if cfg.retries + 1 ≤ s.attempt then
    { result := AttemptResult.fail ue, state := s1,
      initCalled := initCalled, descriptorSent := descriptorSent }
  else if ¬ isRetryableError ue = true then
    { result := AttemptResult.fail ue, state := s1,
      initCalled := initCalled, descriptorSent := descriptorSent }
  else if env.abortedAtCatch then
    { result := AttemptResult.fail ue, state := s1,
      initCalled := initCalled, descriptorSent := descriptorSent }
  else
    { result := AttemptResult.retry (calculateRetryDelay s.attempt cfg),
      state := { s1 with attempt := s1.attempt + 1 },
      initCalled := initCalled, descriptorSent := descriptorSent }

/-- Embeds the transport call of one attempt: `transport.upload` settles
with the environment's transport result; a rejection goes through the catch
block. -/
def attemptTransport (cfg : RetryConfig) (s : RetryState) (env : AttemptEnv)
    (initCalled : Bool) (d : PresignConfig) : AttemptOut :=
  let s1 := { s with transportCalls := s.transportCalls + 1 }
  match env.transportResult with
  | Except.ok r =>
    { result := AttemptResult.success r, state := s1,
      initCalled := initCalled, descriptorSent := some d }
  | Except.error e => handleCatch cfg s1 env e initCalled (some d)

/-- Embeds one iteration of the `uploadWithRetry` loop body. -/
def runAttempt (cfg : RetryConfig) (s : RetryState) (env : AttemptEnv) : AttemptOut :=
  if env.abortedAtStart then
    handleCatch cfg s env
      (normalizeError (RawError.jsError ("Error") ("Aborted")) UploadPhase.uploadPhase)
      false none
  else if needsReinit cfg s then
    match env.initResult with
    | Except.error e =>
      handleCatch cfg { s with initCalls := s.initCalls + 1 } env e true none
    | Except.ok d =>
      attemptTransport cfg
        { s with presignConfig := some d, initCalls := s.initCalls + 1 } env true d
  else
    match s.presignConfig with
    | some d => attemptTransport cfg s env false d
    | none =>
      -- Unreachable: `needsReinit` is true whenever no descriptor is cached
      -- (see `needsReinit_of_no_descriptor` below).
      handleCatch cfg s env
        (normalizeError (RawError.jsError ("Error") ("Aborted")) UploadPhase.uploadPhase)
        false none

/-- The branch guard: with no cached descriptor the reinit condition always
holds, so the junk fallback branch of `runAttempt` is unreachable. -/
theorem needsReinit_of_no_descriptor (cfg : RetryConfig) (s : RetryState)
    (h : s.presignConfig = none) : needsReinit cfg s = true := by
  simp [needsReinit, h]

/-- The settlement of a full orchestrated call. -/
inductive RunOutcome
  | succeeded (r : UploadResult) (s : RetryState)
  | failed (e : UploadError) (s : RetryState)
  | fuelOut (s : RetryState)
deriving DecidableEq, Repr

/-- Drives the `uploadWithRetry` loop over a list of per-attempt
environments (the list bounds the number of iterations; the source loop is
itself bounded by `retries + 1`). -/
def uploadLoop (cfg : RetryConfig) : RetryState → List AttemptEnv → RunOutcome
  | s, [] => RunOutcome.fuelOut s
  | s, env :: rest =>
    let out := runAttempt cfg s env
    match out.result with
    | AttemptResult.success r => RunOutcome.succeeded r out.state
    | AttemptResult.fail e => RunOutcome.failed e out.state
    | AttemptResult.retry _ => uploadLoop cfg out.state rest

/-- The attempt state at the top of `uploadWithRetry`. -/
def initialRetryState : RetryState :=
  { attempt := 1, presignConfig := none, lastError := none,
    initCalls := 0, transportCalls := 0 }

/-- Embeds `uploadWithRetry` as a run of the loop from the initial state. -/
def uploadWithRetry (cfg : RetryConfig) (envs : List AttemptEnv) : RunOutcome :=
  uploadLoop cfg initialRetryState envs

/-! ## Claim C2: cancellation already signaled when an attempt begins -/

/-- A per-attempt environment in which the cancellation signal is set at
every observation point (the settlement slots are never consumed). -/
def abortedEnv : AttemptEnv :=
  { abortedAtStart := true,
    initResult := Except.error (createAbortError UploadPhase.initPhase),
    transportResult := Except.error (createAbortError UploadPhase.uploadPhase),
    abortedAtCatch := true }

/-- The error the orchestrator actually produces at a pre-aborted attempt:
`normalizeError(new Error('Aborted'), 'upload')` classifies the plain
`Error` (whose `name` is `Error`, not `AbortError`) as a network error. -/
def preAbortError : UploadError :=
  { message := "Aborted", phase := UploadPhase.uploadPhase,
    code := UploadErrorCode.NETWORK, status := none, detail := some ("Aborted") }

/-- Claim C2 (code bug): with the cancellation signal already set before the
first attempt and no cached descriptor, the orchestrated call does fail
immediately — attempt counter still 1, zero Initializer calls, zero
Transport calls — but the rejection carries kind `NETWORK` and phase
`upload`, not the claimed kind `ABORTED` with phase `init`. -/
theorem preaborted_call_fails_with_network_not_aborted :
    uploadWithRetry
        { retries := 3, backoff := BackoffKind.exponential, minDelayMs := 500,
          maxDelayMs := 4000, reinitOnAuthError := true }
        [abortedEnv, abortedEnv, abortedEnv, abortedEnv]
      = RunOutcome.failed preAbortError
          { attempt := 1, presignConfig := none,
            lastError := some preAbortError, initCalls := 0,
            transportCalls := 0 } ∧
    preAbortError.code = UploadErrorCode.NETWORK ∧
    preAbortError.code ≠ UploadErrorCode.ABORTED ∧
    preAbortError.phase = UploadPhase.uploadPhase ∧
    preAbortError.phase ≠ UploadPhase.initPhase := by
  refine ⟨rfl, rfl, by decide, rfl, by decide⟩

/-! ## Claim C3: the reinit law -/

/-- The catch block never issues calls of its own: it reports the
Initializer flag it was handed. -/
theorem handleCatch_initCalled (cfg : RetryConfig) (s : RetryState)
    (env : AttemptEnv) (err : UploadError) (ic : Bool)
    (ds : Option PresignConfig) :
    (handleCatch cfg s env err ic ds).initCalled = ic := by
  simp only [handleCatch]
  split_ifs <;> rfl

/-- The catch block reports the transport descriptor it was handed. -/
theorem handleCatch_descriptorSent (cfg : RetryConfig) (s : RetryState)
    (env : AttemptEnv) (err : UploadError) (ic : Bool)
    (ds : Option PresignConfig) :
    (handleCatch cfg s env err ic ds).descriptorSent = ds := by
  simp only [handleCatch]
  split_ifs <;> rfl

/-- The catch block leaves the Initializer call counter unchanged. -/
theorem handleCatch_initCalls (cfg : RetryConfig) (s : RetryState)
    (env : AttemptEnv) (err : UploadError) (ic : Bool)
    (ds : Option PresignConfig) :
    (handleCatch cfg s env err ic ds).state.initCalls = s.initCalls := by
  simp only [handleCatch]
  split_ifs <;> rfl

/-- A transport call reports the Initializer flag it was handed. -/
theorem attemptTransport_initCalled (cfg : RetryConfig) (s : RetryState)
    (env : AttemptEnv) (ic : Bool) (d : PresignConfig) :
    (attemptTransport cfg s env ic d).initCalled = ic := by
  unfold attemptTransport
  cases env.transportResult with
  | ok r => rfl
  | error e => exact handleCatch_initCalled ..

/-- A transport call always sends the descriptor it was handed. -/
theorem attemptTransport_descriptorSent (cfg : RetryConfig) (s : RetryState)
    (env : AttemptEnv) (ic : Bool) (d : PresignConfig) :
    (attemptTransport cfg s env ic d).descriptorSent = some d := by
  unfold attemptTransport
  cases env.transportResult with
  | ok r => rfl
  | error e => exact handleCatch_descriptorSent ..

/-- A transport call leaves the Initializer call counter unchanged. -/
theorem attemptTransport_initCalls (cfg : RetryConfig) (s : RetryState)
    (env : AttemptEnv) (ic : Bool) (d : PresignConfig) :
    (attemptTransport cfg s env ic d).state.initCalls = s.initCalls := by
  unfold attemptTransport
  cases env.transportResult with
  | ok r => rfl
  | error e => exact handleCatch_initCalls ..

/-- Claim C3: after an attempt fails with an `EXPIRED` error, the next loop
iteration performs exactly one additional Initializer call before its
Transport call when `reinitOnAuthError` is set, and performs none — reusing
the same cached descriptor for its Transport call — when the flag is
unset. -/
theorem expired_failure_reinit_law (cfg : RetryConfig) (s : RetryState)
    (env1 env2 : AttemptEnv) (d : PresignConfig) (e : UploadError) (m : String)
    (h1 : env1.abortedAtStart = false)
    (h2 : s.presignConfig = some d)
    (h3 : s.lastError = none)
    (h4 : env1.transportResult = Except.error e)
    (h5 : e = createExpiredError UploadPhase.uploadPhase m)
    (h6 : s.attempt < cfg.retries + 1)
    (h7 : env1.abortedAtCatch = false)
    (h8 : env2.abortedAtStart = false) :
    (runAttempt cfg s env1).result
        = AttemptResult.retry (calculateRetryDelay s.attempt cfg) ∧
    (runAttempt cfg s env1).initCalled = false ∧
    (cfg.reinitOnAuthError = true →
      (runAttempt cfg (runAttempt cfg s env1).state env2).initCalled = true ∧
      (runAttempt cfg (runAttempt cfg s env1).state env2).state.initCalls
          = s.initCalls + 1 ∧
      (∀ d2, env2.initResult = Except.ok d2 →
        (runAttempt cfg (runAttempt cfg s env1).state env2).descriptorSent
            = some d2)) ∧
    (cfg.reinitOnAuthError = false →
      (runAttempt cfg (runAttempt cfg s env1).state env2).initCalled = false ∧
      (runAttempt cfg (runAttempt cfg s env1).state env2).state.initCalls
          = s.initCalls ∧
      (runAttempt cfg (runAttempt cfg s env1).state env2).descriptorSent
          = some d) := by
  have hnr : needsReinit cfg s = false := by simp [needsReinit, h2, h3]
  have hretry : isRetryableError e = true := by
    subst h5; simp [isRetryableError, createExpiredError]
  have hreq : requiresReinit e = true := by
    subst h5; simp [requiresReinit, createExpiredError]
  have h6' : ¬ (cfg.retries + 1 ≤ s.attempt) := by omega
  have hout1 : runAttempt cfg s env1 =
      { result := AttemptResult.retry (calculateRetryDelay s.attempt cfg),
        state := { attempt := s.attempt + 1, presignConfig := some d,
                   lastError := some e, initCalls := s.initCalls,
                   transportCalls := s.transportCalls + 1 },
        initCalled := false, descriptorSent := some d } := by
    simp only [runAttempt, h1, Bool.false_eq_true, if_false, hnr, h2,
      attemptTransport, h4, handleCatch, normalizeError, h7]
    simp [h6', hretry]
  rw [hout1]
  refine ⟨rfl, rfl, ?_, ?_⟩
  · intro hflag
    have hnr2 : needsReinit cfg
        { attempt := s.attempt + 1, presignConfig := some d,
          lastError := some e, initCalls := s.initCalls,
          transportCalls := s.transportCalls + 1 } = true := by
      simp [needsReinit, hreq, hflag]
    cases hir : env2.initResult with
    | error e2 =>
      refine ⟨?_, ?_, ?_⟩
      · simp [runAttempt, h8, hnr2, hir, handleCatch_initCalled]
      · simp [runAttempt, h8, hnr2, hir, handleCatch_initCalls]
      · intro d2 hd2; exact absurd hd2 (by simp)
    | ok d2 =>
      refine ⟨?_, ?_, ?_⟩
      · simp [runAttempt, h8, hnr2, hir, attemptTransport_initCalled]
      · simp [runAttempt, h8, hnr2, hir, attemptTransport_initCalls]
      · intro d3 hd3
        cases hd3
        simp [runAttempt, h8, hnr2, hir, attemptTransport_descriptorSent]
  · intro hflag
    have hnr2 : needsReinit cfg
        { attempt := s.attempt + 1, presignConfig := some d,
          lastError := some e, initCalls := s.initCalls,
          transportCalls := s.transportCalls + 1 } = false := by
      simp [needsReinit, hreq, hflag]
    refine ⟨?_, ?_, ?_⟩ <;>
      simp [runAttempt, h8, hnr2, attemptTransport_initCalled,
        attemptTransport_initCalls, attemptTransport_descriptorSent]

/-- A concrete PUT descriptor for witnesses. -/
def witnessPut : PresignConfig :=
  PresignConfig.put ("https://bucket.example/put-one") ("key-one") none none

/-- A second concrete PUT descriptor, as minted by a reinit. -/
def witnessPutFresh : PresignConfig :=
  PresignConfig.put ("https://bucket.example/put-two") ("key-one") none none

/-- A concrete attempt environment whose Transport call fails with a 403
expired error. -/
def expiredEnv : AttemptEnv :=
  { abortedAtStart := false,
    initResult := Except.ok witnessPut,
    transportResult := Except.error (createExpiredError UploadPhase.uploadPhase
      ("Presigned URL has expired")),
    abortedAtCatch := false }

/-- A concrete follow-up environment whose Initializer mints a fresh
descriptor. -/
def freshInitEnv : AttemptEnv :=
  { abortedAtStart := false,
    initResult := Except.ok witnessPutFresh,
    transportResult := Except.ok
      { key := "key-one", location := none, etag := none,
        mode := UploadMode.putMode },
    abortedAtCatch := false }

/-- Witness for claim C3, at a concrete state holding a cached descriptor
and a concrete 403-expired first attempt, with `reinitOnAuthError = true`. -/
theorem expired_failure_reinit_law_witness :
    (runAttempt
        { retries := 2, backoff := BackoffKind.exponential, minDelayMs := 500,
          maxDelayMs := 4000, reinitOnAuthError := true }
        (runAttempt
          { retries := 2, backoff := BackoffKind.exponential, minDelayMs := 500,
            maxDelayMs := 4000, reinitOnAuthError := true }
          { attempt := 1, presignConfig := some witnessPut, lastError := none,
            initCalls := 1, transportCalls := 0 }
          expiredEnv).state
        freshInitEnv).initCalled = true := by
  have h := expired_failure_reinit_law
    { retries := 2, backoff := BackoffKind.exponential, minDelayMs := 500,
      maxDelayMs := 4000, reinitOnAuthError := true }
    { attempt := 1, presignConfig := some witnessPut, lastError := none,
      initCalls := 1, transportCalls := 0 }
    expiredEnv freshInitEnv witnessPut
    (createExpiredError UploadPhase.uploadPhase ("Presigned URL has expired"))
    ("Presigned URL has expired")
    rfl rfl rfl rfl rfl (by decide) rfl rfl
  exact (h.2.2.1 rfl).1

/-! ## Descriptor initializer (`initializePresign`, claim C5) -/

/-- The runtime value actually produced by a caller-supplied `mapResponse`
function.  The TypeScript annotation promises a `PresignPut | PresignPost`,
but nothing checks it at runtime, so every field other than the mode tag
may be missing. -/
structure RawDescriptor where
  mode : String
  uploadUrl : Option String
  key : Option String
  headers : Option (List (String × String))
  fields : Option (List (String × String))
  postFileFieldName : Option String
  expiresAt : Option Nat
deriving DecidableEq, Repr

/-- Modelled from the spec: structural validity of a descriptor — the
required fields of its declared variant are present.  The source has no
such check; this definition exists to state claim C5. -/
def descriptorStructurallyValid (d : RawDescriptor) : Bool :=
  if d.mode = "put" then d.uploadUrl.isSome && d.key.isSome
  else if d.mode = "post" then
    d.uploadUrl.isSome && d.key.isSome && d.fields.isSome
  else false

/-- The observable settlement of the init-endpoint `fetch`: either the call
itself threw (network failure, abort), or an HTTP response arrived. -/
inductive InitFetchOutcome
  | thrown (raw : RawError)
  | response (status : Nat) (statusText : String) (body : String)
deriving Repr

/-- Embeds `initializePresign`: a non-2xx response is classified with phase
`init`; on a 2xx response the parsed body is passed to the caller-supplied
`mapResponse`, whose result — valid or not — is returned as-is; any
exception is normalized with phase `init` (an `UploadError` is rethrown
unchanged). -/
def initPresign (outcome : InitFetchOutcome)
    (mapResponse : String → Except RawError RawDescriptor) :
    Except UploadError RawDescriptor :=
  match outcome with
  | InitFetchOutcome.thrown raw =>
    Except.error (normalizeError raw UploadPhase.initPhase
      ("Failed to initialize presigned URL"))
  | InitFetchOutcome.response status statusText body =>
    if 200 ≤ status ∧ status < 300 then
      match mapResponse body with
      | Except.error raw =>
        Except.error (normalizeError raw UploadPhase.initPhase
          ("Failed to initialize presigned URL"))
      | Except.ok d => Except.ok d
    else
      Except.error (normalizeError
        (RawError.uploadErr (createErrorFromResponse UploadPhase.initPhase
          status statusText (some body)))
        UploadPhase.initPhase ("Failed to initialize presigned URL"))

/-- A structurally invalid descriptor: declared PUT variant with no
`uploadUrl` and no `key` (the mapping of the repository's own
`mapResponse` validation test). -/
def invalidPutDescriptor : RawDescriptor :=
  { mode := "put", uploadUrl := none, key := none, headers := none,
    fields := none, postFileFieldName := none, expiresAt := none }

/-- Claim C5, counterexample: on a 2xx init response, a `mapResponse` that
returns a structurally invalid descriptor (PUT variant with no `uploadUrl`
and no `key`) is not rejected — `initializePresign` resolves successfully
with the invalid descriptor, which is then handed to the Transport. -/
theorem invalid_descriptor_passes_init :
    initPresign (InitFetchOutcome.response 200 ("OK") ("{}"))
        (fun _ => Except.ok invalidPutDescriptor)
      = Except.ok invalidPutDescriptor ∧
    descriptorStructurallyValid invalidPutDescriptor = false := by
  exact ⟨rfl, rfl⟩

/-- Claim C5, amended: on a 2xx init response, if the caller-supplied
`mapResponse` throws (a non-`UploadError` exception), the Initializer
surfaces a classified `init`-phase `UploadError`; but no structural
validation is performed — whatever descriptor `mapResponse` returns,
including a structurally invalid one, is resolved successfully and handed
on. -/
theorem init_surfaces_throw_but_skips_validation
    (status : Nat) (statusText body : String)
    (mapResponse : String → Except RawError RawDescriptor)
    (hok : 200 ≤ status ∧ status < 300) :
    (∀ raw, (∀ e0, raw ≠ RawError.uploadErr e0) →
      mapResponse body = Except.error raw →
      ∃ e, initPresign (InitFetchOutcome.response status statusText body)
            mapResponse = Except.error e ∧
        e.phase = UploadPhase.initPhase) ∧
    (∀ d, mapResponse body = Except.ok d →
      initPresign (InitFetchOutcome.response status statusText body)
          mapResponse = Except.ok d) := by
  constructor
  · intro raw hraw hmap
    refine ⟨normalizeError raw UploadPhase.initPhase
      ("Failed to initialize presigned URL"), ?_, ?_⟩
    · simp [initPresign, hok, hmap]
    · cases raw with
      | uploadErr e0 => exact absurd rfl (hraw e0)
      | jsError name msg =>
        simp only [normalizeError]
        split_ifs <;> rfl
      | other desc => rfl
  · intro d hmap
    simp [initPresign, hok, hmap]

/-- Witness for the amended claim C5: the repository's own
`mapResponse`-throws test (a generic `Error` with message `Mapping failed`
on a 200 response) yields an init-phase error, and a well-formed PUT
descriptor passes through unchanged. -/
theorem init_surfaces_throw_witness :
    (∃ e, initPresign (InitFetchOutcome.response 200 ("OK") ("{}"))
          (fun _ => Except.error (RawError.jsError ("Error") ("Mapping failed")))
        = Except.error e ∧
      e.phase = UploadPhase.initPhase) := by
  have h := init_surfaces_throw_but_skips_validation 200 ("OK") ("{}")
    (fun _ => Except.error (RawError.jsError ("Error") ("Mapping failed")))
    (by decide)
  exact h.1 (RawError.jsError ("Error") ("Mapping failed"))
    (fun e0 => by simp) rfl

/-! ## Progress throttler (`ProgressThrottler`, claim C7) -/

/-- Embeds the `ProgressThrottler` class state.  Wall-clock time
(`Date.now()`) is passed explicitly to `shouldEmit`. -/
structure ProgressThrottler where
  lastEmit : Int
  intervalMs : Int
deriving DecidableEq, Repr

/-- Embeds the constructor `new ProgressThrottler(intervalMs = 120)`;
`lastEmit` starts at 0. -/
def ProgressThrottler.create (intervalMs : Int := 120) : ProgressThrottler :=
  { lastEmit := 0, intervalMs := intervalMs }

/-- Embeds `shouldEmit()`: opens the gate — and records the emission time —
when at least `intervalMs` milliseconds have passed since the last true
result. -/
def ProgressThrottler.shouldEmit (t : ProgressThrottler) (now : Int) :
    Bool × ProgressThrottler :=
  if t.intervalMs ≤ now - t.lastEmit then (true, { t with lastEmit := now })
  else (false, t)

/-- Runs a sequence of `shouldEmit` calls at the given timestamps,
returning the list of results. -/
def throttleRun (t : ProgressThrottler) : List Int → List Bool
  | [] => []
  | now :: rest =>
    let step := t.shouldEmit now
    step.1 :: throttleRun step.2 rest

/-- After the gate opens at some time, every call strictly inside the
following interval returns false (and leaves the state unchanged). -/
theorem throttleRun_all_false (iv last : Int) (times : List Int)
    (h : ∀ n ∈ times, n - last < iv) :
    throttleRun { lastEmit := last, intervalMs := iv } times
      = List.replicate times.length false := by
  induction times with
  | nil => rfl
  | cons n rest ih =>
    have h1 : ¬ iv ≤ n - last := by
      have := h n (by simp)
      omega
    simp [throttleRun, ProgressThrottler.shouldEmit, h1, List.replicate_succ]
    exact ih (fun m hm => h m (by simp [hm]))

/-! ## Per-file progress events of the XHR transport (claims C6 and C7) -/

/-- An emitted `UploadProgress` value.  The percent is an optional integer:
`none` models the non-finite value (NaN or Infinity) that JavaScript
division by zero produces. -/
structure UploadProgress where
  bytesSent : Nat
  totalBytes : Nat
  percent : Option Int
deriving DecidableEq, Repr

/-- JavaScript `Math.round` on a non-negative finite number: half-up
rounding. -/
def jsRound (q : ℚ) : Int := Int.floor (q + 1 / 2)

/-- The percent computation of the XHR progress handler,
`Math.round((event.loaded / event.total) * 100)`, under JavaScript number
semantics: dividing by a zero total produces a non-finite value (NaN for
0/0), modelled as `none`.  The source applies no zero guard here. -/
def xhrProgressPercent (loaded total : Nat) : Option Int :=
  if total = 0 then none
  else some (jsRound ((loaded : ℚ) / (total : ℚ) * 100))

/-- Embeds the `progress` listener installed by `XHRTransport.upload`: when
the event length is computable and either the throttler gate opens or the
event is terminal (`event.loaded === event.total`), an `UploadProgress`
value is delivered to the caller's `onProgress` callback. -/
def xhrProgressEvent (t : ProgressThrottler) (now : Int)
    (lengthComputable : Bool) (loaded total : Nat) :
    Option UploadProgress × ProgressThrottler :=
  if lengthComputable then
    let step := t.shouldEmit now
    if step.1 || loaded == total then
      (some { bytesSent := loaded, totalBytes := total,
              percent := xhrProgressPercent loaded total }, step.2)
    else (none, step.2)
  else (none, t)

/-- Claim C7: once `shouldEmit` returns true at time `now`, every later call
made strictly less than `intervalMs` milliseconds after `now` returns
false; the terminal progress event (`loaded = total`) is always delivered
regardless of the gate; and the constructed throttler's default interval is
120 ms. -/
theorem throttler_rate_limit_and_terminal_delivery
    (t : ProgressThrottler) (now : Int) (times : List Int)
    (hfirst : (t.shouldEmit now).1 = true)
    (hclose : ∀ n ∈ times, n - now < t.intervalMs) :
    throttleRun (t.shouldEmit now).2 times = List.replicate times.length false ∧
    (∀ (t2 : ProgressThrottler) (n2 : Int) (loaded : Nat),
      ((xhrProgressEvent t2 n2 true loaded loaded).1).isSome = true) ∧
    ProgressThrottler.create.intervalMs = 120 := by
  refine ⟨?_, ?_, rfl⟩
  · have hsnd : (t.shouldEmit now).2 = { lastEmit := now, intervalMs := t.intervalMs } := by
      unfold ProgressThrottler.shouldEmit
      unfold ProgressThrottler.shouldEmit at hfirst
      split_ifs at hfirst ⊢ with hc
      · rfl
    rw [hsnd]
    exact throttleRun_all_false t.intervalMs now times hclose
  · intro t2 n2 loaded
    simp [xhrProgressEvent]

/-- Witness for claim C7: a fresh 120 ms throttler emits at time 150 and
then stays closed at times 151 and 269 (both less than 150 + 120). -/
theorem throttler_rate_limit_witness :
    throttleRun ((ProgressThrottler.create 120).shouldEmit 150).2 [151, 269]
      = List.replicate 2 false := by
  have h := throttler_rate_limit_and_terminal_delivery
    (ProgressThrottler.create 120) 150 [151, 269]
    (by decide)
    (by intro n hn; fin_cases hn <;> decide)
  exact h.1

/-! ## Overall progress aggregation (`updateOverallProgress`, claim C6) -/

/-- Embeds the aggregation loop of `updateOverallProgress` in `uploadMany`:
walk the file sizes with their indices, accumulating the total byte count
and the bytes sent recorded in the per-index progress map (an index with no
recorded progress contributes zero sent).  Returns
(totalBytes, totalSent). -/
def overallTotals (pm : Nat → Option Nat) : Nat → List Nat → Nat × Nat
  | _, [] => (0, 0)
  | i, size :: rest =>
    let r := overallTotals pm (i + 1) rest
    (size + r.1, (pm i).getD 0 + r.2)

/-- Embeds the percent computation of `updateOverallProgress`:
`totalBytes > 0 ? Math.round((totalSent / totalBytes) * 100) : 0`. -/
def overallPercent (totalSent totalBytes : Nat) : Int :=
  if 0 < totalBytes then jsRound ((totalSent : Rat) / (totalBytes : Rat) * 100)
  else 0

/-- Embeds the `UploadProgress` value handed to `onOverallProgress`. -/
def updateOverallProgress (files : List Nat) (pm : Nat → Option Nat) :
    UploadProgress :=
  let totals := overallTotals pm 0 files
  { bytesSent := totals.2, totalBytes := totals.1,
    percent := some (overallPercent totals.2 totals.1) }

/-- Modelled from the spec: the percent formula exactly as claim C6 words
it — `round(bytesSent / totalBytes * 100)`, with `totalBytes = 0` defined
to yield 0. -/
def specClaimPercent (sent total : Nat) : Int :=
  if total = 0 then 0 else jsRound ((sent : Rat) / (total : Rat) * 100)

/-- Half-up rounding maps the interval [0, 100] into the integer range
[0, 100]. -/
theorem jsRound_bounds (q : Rat) (h0 : 0 ≤ q) (h1 : q ≤ 100) :
    0 ≤ jsRound q ∧ jsRound q ≤ 100 := by
  constructor
  · exact Int.le_floor.mpr (by push_cast; linarith)
  · have h : jsRound q < 101 := Int.floor_lt.mpr (by push_cast; linarith)
    omega

/-- The progress ratio times 100 lies in [0, 100] whenever the bytes sent
do not exceed the total. -/
theorem ratio_bounds (a b : Nat) (hb : 0 < b) (hab : a ≤ b) :
    0 ≤ (a : Rat) / (b : Rat) * 100 ∧ (a : Rat) / (b : Rat) * 100 ≤ 100 := by
  have hb1 : (0 : Rat) < (b : Rat) := by exact_mod_cast hb
  constructor
  · positivity
  · have hd : (a : Rat) / (b : Rat) ≤ 1 := by
      rw [div_le_one hb1]
      exact_mod_cast hab
    nlinarith

/-- The aggregated bytes sent never exceed the aggregated total when each
recorded per-file progress is bounded by that file's size. -/
theorem overallTotals_le (pm : Nat → Option Nat) (files : List Nat) (k : Nat)
    (h : ∀ j, (pm (k + j)).getD 0 ≤ files.getD j 0) :
    (overallTotals pm k files).2 ≤ (overallTotals pm k files).1 := by
  induction files generalizing k with
  | nil => simp [overallTotals]
  | cons size rest ih =>
    have h0 : (pm k).getD 0 ≤ size := by
      have := h 0
      simpa using this
    have hrest : ∀ j, (pm ((k + 1) + j)).getD 0 ≤ rest.getD j 0 := by
      intro j
      have := h (j + 1)
      simpa [Nat.add_comm, Nat.add_assoc, Nat.add_left_comm] using this
    have := ih (k + 1) hrest
    simp only [overallTotals]
    omega

/-- Claim C6, counterexample: at a terminal progress event with
`totalBytes = 0` (an empty file), the XHR per-file handler does emit — the
terminal bypass fires — but its percent is the non-finite result of
`0 / 0`, not the claimed 0: the computation does divide by zero. -/
theorem zero_total_per_file_percent_divides_by_zero :
    (xhrProgressEvent (ProgressThrottler.create 120) 0 true 0 0).1
      = some { bytesSent := 0, totalBytes := 0, percent := none } ∧
    xhrProgressPercent 0 0 = none ∧
    specClaimPercent 0 0 = 0 ∧
    xhrProgressPercent 0 0 ≠ some (specClaimPercent 0 0) := by
  refine ⟨rfl, rfl, rfl, by simp [xhrProgressPercent, specClaimPercent]⟩

/-- Claim C6, amended: the per-file XHR percent equals
`round(bytesSent / totalBytes * 100)` and lies in [0, 100] whenever
`totalBytes > 0` (with `totalBytes = 0` it is the non-finite result of a
division by zero, see the counterexample); the overall percent of
`uploadMany` follows the claimed formula including the zero guard, lies in
[0, 100], and the aggregated bytes sent never exceed the aggregated total
bytes. -/
theorem progress_percent_formula_and_bounds
    (loaded total sent tb : Nat) (files : List Nat) (pm : Nat → Option Nat)
    (htotal : 0 < total) (hloaded : loaded ≤ total) (hsent : sent ≤ tb)
    (hpm : ∀ j, (pm j).getD 0 ≤ files.getD j 0) :
    (xhrProgressPercent loaded total = some (specClaimPercent loaded total) ∧
      0 ≤ specClaimPercent loaded total ∧ specClaimPercent loaded total ≤ 100) ∧
    (overallPercent sent tb = specClaimPercent sent tb ∧
      0 ≤ overallPercent sent tb ∧ overallPercent sent tb ≤ 100) ∧
    ((updateOverallProgress files pm).bytesSent
        ≤ (updateOverallProgress files pm).totalBytes ∧
      (updateOverallProgress files pm).percent
        = some (specClaimPercent (updateOverallProgress files pm).bytesSent
            (updateOverallProgress files pm).totalBytes)) := by
  have htot0 : total ≠ 0 := by omega
  refine ⟨⟨?_, ?_⟩, ⟨?_, ?_, ?_⟩, ?_, ?_⟩
  · simp [xhrProgressPercent, specClaimPercent, htot0]
  · have hr := ratio_bounds loaded total htotal hloaded
    have hb := jsRound_bounds _ hr.1 hr.2
    simp only [specClaimPercent, htot0, if_false]
    exact ⟨hb.1, hb.2⟩
  · by_cases h0 : tb = 0
    · simp [overallPercent, specClaimPercent, h0]
    · have : 0 < tb := by omega
      simp [overallPercent, specClaimPercent, h0, this]
  · by_cases h0 : tb = 0
    · simp [overallPercent, h0]
    · have ht : 0 < tb := by omega
      have hr := ratio_bounds sent tb ht hsent
      have hb := jsRound_bounds _ hr.1 hr.2
      simpa [overallPercent, ht] using hb.1
  · by_cases h0 : tb = 0
    · simp [overallPercent, h0]
    · have ht : 0 < tb := by omega
      have hr := ratio_bounds sent tb ht hsent
      have hb := jsRound_bounds _ hr.1 hr.2
      simpa [overallPercent, ht] using hb.2
  · have := overallTotals_le pm files 0 (fun j => by simpa using hpm j)
    simpa [updateOverallProgress] using this
  · have hle := overallTotals_le pm files 0 (fun j => by simpa using hpm j)
    by_cases h0 : (overallTotals pm 0 files).1 = 0
    · simp [updateOverallProgress, overallPercent, specClaimPercent, h0]
    · have ht : 0 < (overallTotals pm 0 files).1 := by omega
      simp [updateOverallProgress, overallPercent, specClaimPercent, h0, ht]

/-- A concrete per-index progress map for the claim C6 witness: file 0 has
reported 1 byte sent, no other file has reported progress. -/
def witnessProgressMap : Nat → Option Nat :=
  fun i => if i = 0 then some 1 else none

/-- Witness for the amended claim C6, at loaded 1 of total 2, overall 3 of
4, and two files of sizes 1 and 2. -/
theorem progress_percent_formula_witness :
    xhrProgressPercent 1 2 = some (specClaimPercent 1 2) ∧
    0 ≤ specClaimPercent 1 2 ∧ specClaimPercent 1 2 ≤ 100 := by
  have h := progress_percent_formula_and_bounds 1 2 3 4 [1, 2]
    witnessProgressMap
    (by decide) (by decide) (by decide)
    (by
      intro j
      rcases j with _ | _ | j <;> simp [witnessProgressMap])
  exact h.1

/-! ## Multipart body construction for POST descriptors (claim C8) -/

/-- One entry of a `FormData` body: a policy field with its value, or the
file itself. -/
inductive FormEntry
  | policyField (value : String)
  | fileEntry
deriving DecidableEq, Repr

/-- Models `config.postFileFieldName || 'file'` with JavaScript truthiness:
an absent name and a configured empty string are both falsy and fall back
to `file`. -/
def fileFieldNameOrDefault (postFileFieldName : Option String) : String :=
  match postFileFieldName with
  | some s => if s = "" then "file" else s
  | none => "file"

/-- Embeds the `FormData` construction of the XHR POST branch: create an
empty body, append every policy field in iteration order, then append the
file under `config.postFileFieldName || 'file'`. -/
def xhrBuildPostFormData (fields : List (String × String))
    (postFileFieldName : Option String) : List (String × FormEntry) :=
  let formData : List (String × FormEntry) :=
    fields.foldl (fun fd p => fd ++ [(p.1, FormEntry.policyField p.2)]) []
  let fileFieldName := fileFieldNameOrDefault postFileFieldName
  formData ++ [(fileFieldName, FormEntry.fileEntry)]

/-- Embeds the `FormData` construction of the fetch POST branch (the source
duplicates the XHR logic verbatim, `config.postFileFieldName || 'file'`
included). -/
def fetchBuildPostFormData (fields : List (String × String))
    (postFileFieldName : Option String) : List (String × FormEntry) :=
  let formData : List (String × FormEntry) :=
    fields.foldl (fun fd p => fd ++ [(p.1, FormEntry.policyField p.2)]) []
  let fileFieldName := fileFieldNameOrDefault postFileFieldName
  formData ++ [(fileFieldName, FormEntry.fileEntry)]

/-- Folding appends over a field list materializes the fields in order. -/
theorem foldl_append_policyFields (fields : List (String × String))
    (acc : List (String × FormEntry)) :
    fields.foldl (fun fd p => fd ++ [(p.1, FormEntry.policyField p.2)]) acc
      = acc ++ fields.map (fun p => (p.1, FormEntry.policyField p.2)) := by
  induction fields generalizing acc with
  | nil => simp
  | cons p rest ih => simp [List.foldl, ih]

/-- Claim C8: for every POST descriptor, both transports build the
multipart body as the policy fields in input order followed by the file
entry; every policy field keeps its index (so it precedes the file entry,
which sits at index `fields.length`), and the file entry's name is the
configured `postFileFieldName` when it is present and non-empty, with the
default `file` when it is absent or empty (the `||` falsy fallback of the
source). -/
theorem post_body_policy_fields_before_file (fields : List (String × String))
    (postFileFieldName : Option String) :
    xhrBuildPostFormData fields postFileFieldName
        = fields.map (fun p => (p.1, FormEntry.policyField p.2))
          ++ [(fileFieldNameOrDefault postFileFieldName, FormEntry.fileEntry)] ∧
    fetchBuildPostFormData fields postFileFieldName
        = xhrBuildPostFormData fields postFileFieldName ∧
    (∀ (i : Nat) (p : String × String), fields[i]? = some p →
      (xhrBuildPostFormData fields postFileFieldName)[i]?
        = some (p.1, FormEntry.policyField p.2)) ∧
    (xhrBuildPostFormData fields postFileFieldName)[fields.length]?
      = some (fileFieldNameOrDefault postFileFieldName, FormEntry.fileEntry) ∧
    (∀ s, ¬ s = "" → fileFieldNameOrDefault (some s) = s) ∧
    fileFieldNameOrDefault none = "file" ∧
    fileFieldNameOrDefault (some ("")) = "file" := by
  have heq : xhrBuildPostFormData fields postFileFieldName
      = fields.map (fun p => (p.1, FormEntry.policyField p.2))
        ++ [(fileFieldNameOrDefault postFileFieldName, FormEntry.fileEntry)] := by
    simp [xhrBuildPostFormData, foldl_append_policyFields]
  refine ⟨heq, rfl, ?_, ?_, ?_, rfl, rfl⟩
  · intro i p hp
    have hi : i < fields.length := by
      rcases List.getElem?_eq_some_iff.mp hp with ⟨h, _⟩
      exact h
    rw [heq]
    rw [List.getElem?_append_left (by simpa using hi)]
    simp [hp]
  · rw [heq]
    rw [List.getElem?_append_right (by simp)]
    simp
  · intro s hs
    simp [fileFieldNameOrDefault, hs]

/-- Witness for claim C8, at the mock POST policy of the repository's test
setup (two of its fields) with no configured file field name. -/
theorem post_body_policy_fields_witness :
    (xhrBuildPostFormData [("key", "test-key-post"), ("Policy", "test-policy")]
        none)[2]?
      = some ("file", FormEntry.fileEntry) :=
  (post_body_policy_fields_before_file
    [("key", "test-key-post"), ("Policy", "test-policy")] none).2.2.2.1

/-! ## Fetch transport (claim C10) -/

/-- The observable settlement of the fetch call inside
`FetchTransport.upload`: either `fetch` itself threw, or an HTTP response
arrived with its headers and body. -/
inductive FetchOutcome
  | thrown (raw : RawError)
  | response (status : Nat) (statusText : String) (etagHeader : Option String)
      (locationHeader : Option String) (body : Option String)
deriving Repr

/-- Models `response.headers.get('Location') || undefined`: a missing or
empty header is falsy and becomes undefined. -/
def headerOrNone (h : Option String) : Option String :=
  match h with
  | some s => if s = "" then none else some s
  | none => none

def quoteChar : Char := Char.ofNat 34

/-- Models `response.headers.get('ETag')?.replace(/"/g, '') || undefined`:
strip every double quote, then treat an empty result as undefined. -/
def etagOrNone (h : Option String) : Option String :=
  match h with
  | some s =>
    let stripped := String.mk (s.data.filter (fun c => ¬ c = quoteChar))
    if stripped = "" then none else some stripped
  | none => none

/-- Embeds `FetchTransport.upload`.  The second component is the list of
`UploadProgress` values the transport delivers to the caller's `onProgress`
callback; the source destructures only `signal` from its options and never
invokes the callback. -/
def fetchTransportUpload (config : PresignConfig) (outcome : FetchOutcome) :
    Except UploadError UploadResult × List UploadProgress :=
  match outcome with
  | FetchOutcome.thrown raw =>
    match raw with
    | RawError.jsError name msg =>
      if name = "AbortError" then
        (Except.error (createAbortError UploadPhase.uploadPhase msg), [])
      else
        (Except.error (normalizeError (RawError.jsError name msg)
          UploadPhase.uploadPhase ("Upload request failed")), [])
    | r =>
      (Except.error (normalizeError r UploadPhase.uploadPhase
        ("Upload request failed")), [])
  | FetchOutcome.response status statusText etagHeader locationHeader body =>
    if 200 ≤ status ∧ status < 300 then
      (Except.ok { key := config.key, location := headerOrNone locationHeader,
                   etag := etagOrNone etagHeader, mode := config.mode }, [])
    else
      (Except.error (normalizeError
        (RawError.uploadErr (createErrorFromResponse UploadPhase.uploadPhase
          status statusText body))
        UploadPhase.uploadPhase ("Upload request failed")), [])

/-- Claim C10: for every descriptor and every settlement of the underlying
fetch — success of either variant, HTTP failure, thrown network error or
abort — the fetch transport delivers no progress event at all: the list of
`onProgress` invocations is empty. -/
theorem fetch_transport_never_reports_progress (config : PresignConfig)
    (outcome : FetchOutcome) :
    (fetchTransportUpload config outcome).2 = [] := by
  cases outcome with
  | thrown raw =>
    cases raw with
    | uploadErr e => rfl
    | jsError name msg =>
      simp only [fetchTransportUpload]
      split_ifs <;> rfl
    | other desc => rfl
  | response status statusText etagHeader locationHeader body =>
    simp only [fetchTransportUpload]
    split_ifs <;> rfl

/-! ## Bounded-concurrency scheduler (`ConcurrencyController`, claim C9) -/

/-- The observable state of a `ConcurrencyController`: the `running`
counter, the pending `queue` (task identifiers, FIFO), plus an observation
trace `started` recording every task start in order. -/
structure CCState where
  running : Nat
  queue : List Nat
  started : List Nat
deriving DecidableEq, Repr

/-- Embeds `processQueue`: when the queue is non-empty and a slot is free,
shift the oldest pending task and start it. -/
def processQueue (maxConcurrency : Nat) (s : CCState) : CCState :=
  match s.queue with
  | [] => s
  | t :: rest =>
    if s.running < maxConcurrency then
      { running := s.running + 1, queue := rest, started := s.started ++ [t] }
    else s

/-- Embeds `execute`: run the task immediately (incrementing `running`) when
below the bound, otherwise push it onto the queue. -/
def executeTask (maxConcurrency : Nat) (s : CCState) (t : Nat) : CCState :=
  if s.running < maxConcurrency then
    { running := s.running + 1, queue := s.queue, started := s.started ++ [t] }
  else { s with queue := s.queue ++ [t] }

/-- Embeds the `finally` block of a settling task: decrement `running`, then
`processQueue`. -/
def settleTask (maxConcurrency : Nat) (s : CCState) : CCState :=
  processQueue maxConcurrency { s with running := s.running - 1 }

/-- Embeds the submission loop of `uploadMany`: `files.map` calls
`controller.execute` synchronously for every file in input order before any
task settles. -/
def submitAll (maxConcurrency : Nat) (s : CCState) (ts : List Nat) : CCState :=
  ts.foldl (executeTask maxConcurrency) s

/-- A freshly constructed controller. -/
def initialCCState : CCState := { running := 0, queue := [], started := [] }

/-- The reachable states of one `uploadMany` run with concurrency bound `k`
over task list `ts`: all tasks are submitted up-front, then any number of
settlements occur. -/
inductive CCRun (k : Nat) (ts : List Nat) : CCState → Prop
  | submitted : CCRun k ts (submitAll k initialCCState ts)
  | settled {s : CCState} (h : CCRun k ts s) (hr : 0 < s.running) :
      CCRun k ts (settleTask k s)

/-- The controller invariant: the running count respects the bound, the
start trace is a prefix of the task list in input order, the queue is the
matching suffix, and a non-empty queue means every slot is taken. -/
def CCInv (k : Nat) (ts : List Nat) (s : CCState) : Prop :=
  s.running ≤ k ∧ ∃ m, m ≤ ts.length ∧ s.started = ts.take m ∧
    s.queue = ts.drop m ∧ (s.queue ≠ [] → s.running = k)

/-- Submitting one task preserves the invariant, extending the task list. -/
theorem execute_preserves_inv (k : Nat) (us : List Nat) (s : CCState) (t : Nat)
    (h : CCInv k us s) : CCInv k (us ++ [t]) (executeTask k s t) := by
  obtain ⟨hrun, m, hm, hstart, hqueue, hfull⟩ := h
  unfold executeTask
  by_cases hlt : s.running < k
  · rw [if_pos hlt]
    have hq0 : s.queue = [] := by
      by_contra hne
      exact absurd (hfull hne) (by omega)
    have hmlen : m = us.length := by
      have h1 : us.length ≤ m := by
        rw [hq0] at hqueue
        exact List.drop_eq_nil_iff.mp hqueue.symm
      omega
    subst hmlen
    have hstart' : s.started = us := by simpa using hstart
    refine ⟨by show s.running + 1 ≤ k; omega, us.length + 1, by simp, ?_, ?_, ?_⟩
    · simp [hstart']
    · simp [hq0]
    · simp [hq0]
  · rw [if_neg hlt]
    refine ⟨hrun, m, by simp; omega, ?_, ?_, ?_⟩
    · simpa [List.take_append_of_le_length hm] using hstart
    · simp only
      rw [List.drop_append_of_le_length hm, ← hqueue]
    · intro _
      show s.running = k
      omega

/-- Submitting a whole task list preserves the invariant. -/
theorem submitAll_preserves_inv (k : Nat) (ts : List Nat) :
    ∀ (us : List Nat) (s : CCState), CCInv k us s →
      CCInv k (us ++ ts) (submitAll k s ts) := by
  induction ts with
  | nil => intro us s h; simpa [submitAll] using h
  | cons t rest ih =>
    intro us s h
    have h1 := execute_preserves_inv k us s t h
    have h2 := ih (us ++ [t]) (executeTask k s t) h1
    simpa [submitAll, List.append_assoc] using h2

/-- A settlement preserves the invariant. -/
theorem settle_preserves_inv (k : Nat) (ts : List Nat) (s : CCState)
    (h : CCInv k ts s) (hr : 0 < s.running) : CCInv k ts (settleTask k s) := by
  obtain ⟨hrun, m, hm, hstart, hqueue, hfull⟩ := h
  cases hq : s.queue with
  | nil =>
    have heq : settleTask k s = { s with running := s.running - 1 } := by
      unfold settleTask processQueue
      dsimp only
      rw [hq]
    rw [heq]
    refine ⟨by show s.running - 1 ≤ k; omega, m, hm, hstart, ?_, ?_⟩
    · simpa using hqueue
    · intro hne
      exact absurd hq hne
  | cons t rest =>
    have hk : s.running = k := hfull (by simp [hq])
    have hlt : s.running - 1 < k := by omega
    have heq : settleTask k s =
        { running := s.running - 1 + 1, queue := rest,
          started := s.started ++ [t] } := by
      unfold settleTask processQueue
      dsimp only
      rw [hq]
      dsimp only
      rw [if_pos hlt]
    rw [heq]
    have hmlt : m < ts.length := by
      by_contra hge
      have hnil : ts.drop m = [] := List.drop_eq_nil_of_le (by omega)
      rw [hqueue] at hq
      rw [hq] at hnil
      simp at hnil
    have hget : ts[m]? = some t := by
      have h0 : (ts.drop m)[0]? = some t := by
        rw [hqueue] at hq
        simp [hq]
      rw [List.getElem?_drop] at h0
      simpa using h0
    refine ⟨by show s.running - 1 + 1 ≤ k; omega, m + 1, by omega, ?_, ?_, ?_⟩
    · simp only
      rw [hstart, List.take_succ, hget]
      rfl
    · simp only
      have hdrop : ts.drop (m + 1) = rest := by
        have h1 : (ts.drop m).drop 1 = ts.drop (m + 1) := by
          rw [List.drop_drop]
        rw [← h1, ← hqueue, hq]
        rfl
      rw [hdrop]
    · intro _
      show s.running - 1 + 1 = k
      omega

/-- Every reachable state of a run satisfies the invariant. -/
theorem ccRun_inv (k : Nat) (ts : List Nat) (s : CCState) (h : CCRun k ts s) :
    CCInv k ts s := by
  induction h with
  | submitted =>
    have h0 : CCInv k [] initialCCState :=
      ⟨by simp [initialCCState], 0, by simp, by simp [initialCCState],
        by simp [initialCCState], by simp [initialCCState]⟩
    have := submitAll_preserves_inv k ts [] initialCCState h0
    simpa using this
  | settled h hr ih => exact settle_preserves_inv k ts _ ih hr

/-- Claim C9: in every reachable state of an `uploadMany` run with
concurrency bound `k`, the number of in-flight tasks never exceeds `k`, and
the tasks started so far are exactly a prefix of the input list in input
order, with the remaining tasks queued as the matching suffix. -/
theorem concurrency_bound_and_start_order (k : Nat) (ts : List Nat)
    (s : CCState) (h : CCRun k ts s) :
    s.running ≤ k ∧ ∃ m, m ≤ ts.length ∧ s.started = ts.take m ∧
      s.queue = ts.drop m := by
  obtain ⟨hrun, m, hm, hstart, hqueue, _⟩ := ccRun_inv k ts s h
  exact ⟨hrun, m, hm, hstart, hqueue⟩

/-- Witness for claim C9: four submitted tasks under bound 2, after one
settlement (which admits the third task from the queue). -/
theorem concurrency_bound_witness :
    (settleTask 2 (submitAll 2 initialCCState [0, 1, 2, 3])).running ≤ 2 ∧
    ∃ m, m ≤ ([0, 1, 2, 3] : List Nat).length ∧
      (settleTask 2 (submitAll 2 initialCCState [0, 1, 2, 3])).started
        = ([0, 1, 2, 3] : List Nat).take m ∧
      (settleTask 2 (submitAll 2 initialCCState [0, 1, 2, 3])).queue
        = ([0, 1, 2, 3] : List Nat).drop m :=
  concurrency_bound_and_start_order 2 [0, 1, 2, 3] _
    (CCRun.settled CCRun.submitted (by decide))

end S3Upload
